import Mathlib

/-!
Shallow embedding of the dice-rolling observability sandbox:
the Specification Store (stage3 die-service/main.py), the Roll Engine
(stage4 dice-roller/main.py) and the Gateway (stage4 frontend/main.py).
Randomness is made explicit: every trial consumes a `TrialDraw` holding the
uniform delay draw, the uniform fault draw and the face-selection index.
Network effects are made explicit as outcome values (timeout, connection
error, HTTP response with status and parsed body).
-/

namespace ObsSandbox

/-! ### Specification Store: stage3 die-service/main.py -/

/-- A stored die specification, as one entry of the die_specifications
mapping loaded from die_specifications.json: face values and error rate. -/
structure StoredSpec where
  faces : List ℕ
  error_rate : ℚ
deriving Repr, DecidableEq

/-- Response body of GET /dice in die-service/main.py: either the list of
all identifiers (list mode) or one identifier with its specification. -/
inductive DieServiceResponse where
  | identifierList (identifiers : List String)
  | specification (identifier : String) (spec : StoredSpec)
deriving Repr, DecidableEq

/-- get_die_specifications (die-service/main.py, GET /dice): with no
identifier, return the list of all stored identifiers; with an identifier,
return its stored specification, or fail with HTTP status 404 when the
identifier is absent. The store is the insertion-ordered dict
die_specifications, modelled as an association list with unique keys. -/
def get_die_specifications (store : List (String × StoredSpec)) :
    Option String → Except ℕ DieServiceResponse
  | none => .ok (.identifierList (store.map Prod.fst))
  | some identifier =>
    match store.lookup identifier with
    | some spec => .ok (.specification identifier spec)
    | none => .error 404

/-! ### Roll Engine: stage4 dice-roller/main.py -/

/-- The parsed "specification" JSON object the die service returns to the
roll engine; either field may be absent (spec.get falls back to a default). -/
structure SpecJson where
  faces : Option (List ℕ)
  error_rate : Option ℚ
deriving Repr, DecidableEq

/-- Outcome of the engine's requests.get call to the die service in
get_die_specification: timeout, connection error, any other exception, or
an HTTP response with a status code and the optional "specification" field
of its JSON body. -/
inductive StoreOutcome where
  | timeout
  | connectionError
  | otherException
  | response (status : ℕ) (specification : Option SpecJson)
deriving Repr, DecidableEq

/-- get_die_specification (dice-roller/main.py lines 122-208): on a 200
response return data.get("specification", \x7b\x7d) — the empty object when the
field is missing; on any other status, on timeout, on connection error and
on any other exception return None. -/
def get_die_specification : StoreOutcome → Option SpecJson
  | .response status spec? =>
    if status = 200 then some (spec?.getD ⟨none, none⟩) else none
  | _ => none

/-- The random draws one roll trial consumes, in program order:
delay = random.uniform(0, 1.0), fault = random.random() (in [0,1)),
faceIdx drives random.choice(faces) (face chosen = faces[faceIdx mod len]). -/
structure TrialDraw where
  delay : ℚ
  fault : ℚ
  faceIdx : ℕ
deriving Repr, DecidableEq, Inhabited

/-- Terminal outcome of one roll trial. -/
inductive TrialOutcome where
  | succeeded (face : ℕ)
  | failed
deriving Repr, DecidableEq

/-- perform_single_async_roll (dice-roller/main.py lines 211-269), outcome
part: after the delay, if random.random() < error_rate the trial raises
(DieFailure); otherwise it returns random.choice(faces). -/
def perform_single_async_roll (faces : List ℕ) (error_rate : ℚ)
    (d : TrialDraw) : TrialOutcome :=
  if d.fault < error_rate then .failed
  else .succeeded (faces.getD (d.faceIdx % faces.length) 0)

/-- The inline trial logic of the synchronous /roll handler roll_die
(dice-roller/main.py lines 334-356): same delay / fault-check /
random.choice sequence as perform_single_async_roll. -/
def rollTrialSync (faces : List ℕ) (error_rate : ℚ)
    (d : TrialDraw) : TrialOutcome :=
  if d.fault < error_rate then .failed
  else .succeeded (faces.getD (d.faceIdx % faces.length) 0)

/-- States of one roll trial: scheduled (task created), delaying
(awaiting the random sleep), then a terminal success or failure. -/
inductive TrialState where
  | scheduled
  | delaying (delay : ℚ)
  | succeeded (face : ℕ)
  | failed
deriving Repr, DecidableEq

/-- Whether a trial state is terminal. -/
def TrialState.isTerminal : TrialState → Bool
  | .succeeded _ => true
  | .failed => true
  | _ => false

/-- The state trace of one trial of perform_single_async_roll: the task is
created (scheduled), awaits asyncio.sleep(delay) (delaying), and only then
decides the fault/success outcome. -/
def trialTrace (faces : List ℕ) (error_rate : ℚ) (d : TrialDraw) :
    List TrialState :=
  [.scheduled, .delaying d.delay,
   match perform_single_async_roll faces error_rate d with
   | .succeeded v => .succeeded v
   | .failed => .failed]

/-- Error outcomes the roll engine surfaces over HTTP. -/
inductive EngineError where
  | serviceUnavailable
  | dieFailed
  | batchFailed
  | clientInput
deriving Repr, DecidableEq

/-- HTTP status code of each engine error: 503 for the unavailable die
service, 500 for a die failure or failed batch, 422 for the FastAPI
validation failure on the count parameter. -/
def engineStatus : EngineError → ℕ
  | .serviceUnavailable => 503
  | .dieFailed => 500
  | .batchFailed => 500
  | .clientInput => 422

/-- roll_die (dice-roller/main.py lines 299-386, GET /roll): resolve the
specification (503 when None), extract faces with default [1,2,3,4,5,6] and
error_rate with default 0.0, then run the delayed trial; a triggered fault
raises HTTP 500, otherwise the rolled value is returned. -/
def roll_die (store : StoreOutcome) (d : TrialDraw) : Except EngineError ℕ :=
  match get_die_specification store with
  | none => .error .serviceUnavailable
  | some spec =>
    let faces := spec.faces.getD [1, 2, 3, 4, 5, 6]
    let error_rate := spec.error_rate.getD 0
    match rollTrialSync faces error_rate d with
    | .failed => .error .dieFailed
    | .succeeded v => .ok v

/-- asyncio.gather value semantics (return_exceptions left False): when all
tasks succeed, the list of results in task (request-index) order; when any
task raises, no aggregate list. -/
def gatherRolls : List TrialOutcome → Option (List ℕ)
  | [] => some []
  | .succeeded v :: rest => (gatherRolls rest).map (fun l => v :: l)
  | .failed :: _ => none

/-- Delays of the trials whose fault draw triggers a failure. -/
def failingDelays (error_rate : ℚ) (draws : List TrialDraw) : List ℚ :=
  (draws.filter (fun d => decide (d.fault < error_rate))).map TrialDraw.delay

/-- Largest delay among the trials of a batch (0 for an empty batch). -/
def maxDelay (draws : List TrialDraw) : ℚ :=
  draws.foldr (fun d acc => max d.delay acc) 0

/-- Simulated time at which the awaited asyncio.gather future settles:
with no failing trial it waits for all (the maximum delay); with a failing
trial the first raised exception is propagated immediately, at the earliest
failing trial's delay, while siblings keep running uncancelled. -/
def gatherCompletionTime (error_rate : ℚ) (draws : List TrialDraw) : ℚ :=
  match failingDelays error_rate draws with
  | [] => maxDelay draws
  | t :: ts => ts.foldr min t

/-- Successful /roll-async response body: total, rolls, count. -/
structure BatchSuccess where
  total : ℕ
  rolls : List ℕ
  count : ℤ
deriving Repr, DecidableEq

deriving instance DecidableEq for Except

/-- One execution of the /roll-async handler: the HTTP result, the terminal
outcomes of every trial that ran (all launched trials run to completion —
gather cancels nothing), and the simulated time at which the awaited gather
settled (none when no batch was launched). -/
structure BatchExec where
  result : Except EngineError BatchSuccess
  executed : List TrialOutcome
  finishTime : Option ℚ
deriving Repr, DecidableEq

/-- roll_async (dice-roller/main.py lines 389-483, GET /roll-async): FastAPI
validates times against ge=1, le=20 before the handler body runs (422, no
lookup, no trial); the handler resolves the specification (503 when None),
extracts faces/error_rate with the same defaults as /roll, launches one
perform_single_async_roll task per index 0..times-1 (trial i consuming
draws[i]) and awaits asyncio.gather: on all-success it returns
total/rolls/count, on any trial failure the propagated exception becomes
HTTP 500. -/
def roll_async (store : StoreOutcome) (times : ℤ) (draws : List TrialDraw) :
    BatchExec :=
  if 1 ≤ times ∧ times ≤ 20 then
    match get_die_specification store with
    | none => ⟨.error .serviceUnavailable, [], none⟩
    | some spec =>
      let faces := spec.faces.getD [1, 2, 3, 4, 5, 6]
      let error_rate := spec.error_rate.getD 0
      let outcomes := draws.map (perform_single_async_roll faces error_rate)
      match gatherRolls outcomes with
      | some rolls =>
        ⟨.ok ⟨rolls.sum, rolls, times⟩, outcomes,
         some (gatherCompletionTime error_rate draws)⟩
      | none =>
        ⟨.error .batchFailed, outcomes,
         some (gatherCompletionTime error_rate draws)⟩
  else ⟨.error .clientInput, [], none⟩

/-! ### Gateway/Frontend: stage4 frontend/main.py -/

/-- Errors the frontend surfaces to its own caller. -/
inductive FrontendError where
  | gatewayTimeout
  | backendUnreachable
  | backendError (status : ℕ)
  | validationFailure
deriving Repr, DecidableEq

/-- HTTP status of each frontend error: 504 on backend timeout, 503 on
connection failure, the backend's own status when forwarding a backend
error, 422 for the FastAPI validation failure on the times parameter. -/
def frontendStatus : FrontendError → ℕ
  | .gatewayTimeout => 504
  | .backendUnreachable => 503
  | .backendError s => s
  | .validationFailure => 422

/-- Outcome of the frontend's requests.get call to the backend /roll-async:
the 200 body carries total and rolls. -/
inductive BatchBackendOutcome where
  | timeout
  | connectionError
  | response (status : ℕ) (total : ℕ) (rolls : List ℕ)
deriving Repr, DecidableEq

/-- One execution of the frontend /roll-async handler: the result, and
whether the backend call was made at all. -/
structure ForwardBatchExec where
  result : Except FrontendError (ℕ × List ℕ)
  backendCalled : Bool
deriving Repr, DecidableEq

/-- Frontend roll_async (frontend/main.py lines 454-575, GET /roll-async):
FastAPI validates times against ge=1, le=20 before the handler runs (422,
no backend call); then forward to the backend /roll-async with the same
timeout / connection-error / status-forwarding mapping as /roll. -/
def frontendRollAsync (times : ℤ) (backend : BatchBackendOutcome) :
    ForwardBatchExec :=
  if 1 ≤ times ∧ times ≤ 20 then
    match backend with
    | .timeout => ⟨.error .gatewayTimeout, true⟩
    | .connectionError => ⟨.error .backendUnreachable, true⟩
    | .response status total rolls =>
      if status = 200 then ⟨.ok (total, rolls), true⟩
      else ⟨.error (.backendError status), true⟩
  else ⟨.error .validationFailure, false⟩

/-- Outcome of the frontend's startup fetch of the die list from the die
service: any exception (timeout, connection error, bad JSON, ...) or an
HTTP response with the optional "identifiers" field of its body. -/
inductive FetchOutcome where
  | timeout
  | connectionError
  | otherException
  | response (status : ℕ) (identifiers : Option (List String))
deriving Repr, DecidableEq

/-- The module-level default of available_die_types in frontend/main.py. -/
def defaultDieTypes : List String := ["fair", "risky"]

/-- fetch_available_die_types (frontend/main.py lines 105-143): on a 200
response read data.get("identifiers", []) and, when non-empty, replace the
available_die_types global; on an empty list, a non-200 status, or any
exception (timeout and connection error included) leave it unchanged. -/
def fetch_available_die_types (o : FetchOutcome) (cur : List String) :
    List String :=
  match o with
  | .response status identifiers? =>
    if status = 200 then
      let identifiers := identifiers?.getD []
      if identifiers.isEmpty then cur else identifiers
    else cur
  | _ => cur

/-- startup_event (frontend/main.py lines 146-151): run the die-list fetch
over the default available_die_types; it returns normally on every fetch
outcome (fetch_available_die_types catches every exception). -/
def startup_event (o : FetchOutcome) : List String :=
  fetch_available_die_types o defaultDieTypes

/-! ### Helper lemmas -/

/-- random.choice picks an element of the (non-empty) face list. -/
lemma getD_mod_mem (faces : List ℕ) (hne : faces ≠ []) (k : ℕ) :
    faces.getD (k % faces.length) 0 ∈ faces := by
  have hlen : 0 < faces.length := List.length_pos.mpr hne
  have hk : k % faces.length < faces.length := Nat.mod_lt _ hlen
  rw [List.getD_eq_getElem _ _ hk]
  exact List.getElem_mem hk

/-- gather over all-successful trials returns the per-index values. -/
lemma gatherRolls_map_succeeded (f : TrialDraw → ℕ) (l : List TrialDraw) :
    gatherRolls (l.map (fun d => TrialOutcome.succeeded (f d))) =
      some (l.map f) := by
  induction l with
  | nil => rfl
  | cons d rest ih => simp [gatherRolls, ih]

/-- gather propagates a failure whenever some trial failed. -/
lemma gatherRolls_of_mem_failed (os : List TrialOutcome)
    (h : TrialOutcome.failed ∈ os) : gatherRolls os = none := by
  induction os with
  | nil => cases h
  | cons o rest ih =>
    cases o with
    | failed => rfl
    | succeeded v =>
      have hrest : TrialOutcome.failed ∈ rest := by simpa using h
      simp [gatherRolls, ih hrest]

/-- The fold computing the settle time of a failing gather picks one of the
listed delays. -/
lemma foldr_min_mem (t : ℚ) (ts : List ℚ) : ts.foldr min t ∈ t :: ts := by
  induction ts with
  | nil => simp
  | cons x xs ih =>
    simp only [List.foldr]
    rcases min_cases x (xs.foldr min t) with ⟨h, _⟩ | ⟨h, _⟩ <;> rw [h]
    · simp
    · simp only [List.mem_cons] at ih ⊢
      tauto

/-- The fold computing the settle time of a failing gather is a lower bound
of the listed delays. -/
lemma foldr_min_le (t : ℚ) (ts : List ℚ) (x : ℚ) (hx : x ∈ t :: ts) :
    ts.foldr min t ≤ x := by
  induction ts with
  | nil =>
    simp only [List.mem_cons, List.not_mem_nil, or_false] at hx
    simp [hx]
  | cons y ys ih =>
    simp only [List.foldr]
    rcases List.mem_cons.mp hx with h | h
    · subst h
      exact le_trans (min_le_right _ _) (ih (List.mem_cons_self _ _))
    · rcases List.mem_cons.mp h with h2 | h2
      · subst h2
        exact min_le_left _ _
      · exact le_trans (min_le_right _ _)
          (ih (List.mem_cons.mpr (Or.inr h2)))

/-! ### Claims -/

/-- C3: a roll trial fails exactly when its uniform draw in [0,1) is below
the fault probability, and otherwise — at any fault probability — returns
an element of spec.faces; the synchronous /roll trial uses the same rule;
with fault probability 0 it never fails and yields an element of
spec.faces; with fault probability 1 it always fails. -/
theorem roll_trial_fault_semantics (faces : List ℕ) (error_rate : ℚ)
    (d : TrialDraw) (hne : faces ≠ []) (h0 : 0 ≤ d.fault) (h1 : d.fault < 1) :
    (perform_single_async_roll faces error_rate d = .failed ↔
      d.fault < error_rate) ∧
    (¬ d.fault < error_rate →
      ∃ v ∈ faces, perform_single_async_roll faces error_rate d = .succeeded v) ∧
    rollTrialSync faces error_rate d =
      perform_single_async_roll faces error_rate d ∧
    (error_rate = 0 →
      ∃ v ∈ faces, perform_single_async_roll faces error_rate d = .succeeded v) ∧
    (error_rate = 1 → perform_single_async_roll faces error_rate d = .failed) := by
  refine ⟨?_, ?_, rfl, ?_, ?_⟩
  · by_cases h : d.fault < error_rate <;>
      simp [perform_single_async_roll, h]
  · intro h
    exact ⟨_, getD_mod_mem faces hne d.faceIdx,
      by simp [perform_single_async_roll, h]⟩
  · intro h
    subst h
    have h : ¬ d.fault < 0 := not_lt.mpr h0
    exact ⟨_, getD_mod_mem faces hne d.faceIdx,
      by simp [perform_single_async_roll, h]⟩
  · intro h
    subst h
    simp [perform_single_async_roll, h1]

/-- C3 witness: concrete trial with fault draw 3/4 surviving rate 1/10. -/
theorem roll_trial_fault_semantics_witness :
    (perform_single_async_roll [1, 2, 3, 4, 5, 6] (1/10) ⟨0, 3/4, 2⟩ = .failed ↔
      (3/4 : ℚ) < 1/10) ∧
    (¬ (3/4 : ℚ) < 1/10 →
      ∃ v ∈ [1, 2, 3, 4, 5, 6],
        perform_single_async_roll [1, 2, 3, 4, 5, 6] (1/10) ⟨0, 3/4, 2⟩ =
          .succeeded v) ∧
    rollTrialSync [1, 2, 3, 4, 5, 6] (1/10) ⟨0, 3/4, 2⟩ =
      perform_single_async_roll [1, 2, 3, 4, 5, 6] (1/10) ⟨0, 3/4, 2⟩ ∧
    ((1/10 : ℚ) = 0 →
      ∃ v ∈ [1, 2, 3, 4, 5, 6],
        perform_single_async_roll [1, 2, 3, 4, 5, 6] (1/10) ⟨0, 3/4, 2⟩ =
          .succeeded v) ∧
    ((1/10 : ℚ) = 1 →
      perform_single_async_roll [1, 2, 3, 4, 5, 6] (1/10) ⟨0, 3/4, 2⟩ =
        .failed) :=
  roll_trial_fault_semantics [1, 2, 3, 4, 5, 6] (1/10) ⟨0, 3/4, 2⟩
    (by decide) (by norm_num) (by norm_num)

/-- C8: every trial runs Scheduled, then Delaying for its uniform draw from
[0,1], and only then a terminal Succeeded/Failed state decided by the fault
draw; the trace holds exactly one terminal state (never retried), and the
synchronous /roll trial decides the same outcome. -/
theorem trial_state_machine (faces : List ℕ) (error_rate : ℚ) (d : TrialDraw)
    (hd0 : 0 ≤ d.delay) (hd1 : d.delay ≤ 1) :
    ∃ t : TrialState,
      trialTrace faces error_rate d = [.scheduled, .delaying d.delay, t] ∧
      t.isTerminal = true ∧
      (t = .failed ∨ ∃ v, t = .succeeded v) ∧
      (t = .failed ↔ d.fault < error_rate) ∧
      (trialTrace faces error_rate d).countP TrialState.isTerminal = 1 ∧
      0 ≤ d.delay ∧ d.delay ≤ 1 ∧
      rollTrialSync faces error_rate d =
        perform_single_async_roll faces error_rate d := by
  by_cases h : d.fault < error_rate
  · exact ⟨.failed, by simp [trialTrace, perform_single_async_roll, h],
      rfl, Or.inl rfl, by simp [h],
      by simp [trialTrace, perform_single_async_roll, h, List.countP,
        List.countP.go, TrialState.isTerminal],
      hd0, hd1, rfl⟩
  · refine ⟨.succeeded (faces.getD (d.faceIdx % faces.length) 0),
      by simp [trialTrace, perform_single_async_roll, h],
      rfl, Or.inr ⟨_, rfl⟩, by simp [h],
      by simp [trialTrace, perform_single_async_roll, h, List.countP,
        List.countP.go, TrialState.isTerminal],
      hd0, hd1, rfl⟩

/-- C8 witness: concrete trial with delay 1/2 in [0,1]. -/
theorem trial_state_machine_witness :
    ∃ t : TrialState,
      trialTrace [1, 2, 3, 4, 5, 6] 0 ⟨1/2, 1/4, 2⟩ =
        [.scheduled, .delaying (TrialDraw.delay ⟨1/2, 1/4, 2⟩), t] ∧
      t.isTerminal = true ∧
      (t = .failed ∨ ∃ v, t = .succeeded v) ∧
      (t = .failed ↔ TrialDraw.fault ⟨1/2, 1/4, 2⟩ < 0) ∧
      (trialTrace [1, 2, 3, 4, 5, 6] 0 ⟨1/2, 1/4, 2⟩).countP
        TrialState.isTerminal = 1 ∧
      0 ≤ TrialDraw.delay ⟨1/2, 1/4, 2⟩ ∧
      TrialDraw.delay ⟨1/2, 1/4, 2⟩ ≤ 1 ∧
      rollTrialSync [1, 2, 3, 4, 5, 6] 0 ⟨1/2, 1/4, 2⟩ =
        perform_single_async_roll [1, 2, 3, 4, 5, 6] 0 ⟨1/2, 1/4, 2⟩ :=
  trial_state_machine [1, 2, 3, 4, 5, 6] 0 ⟨1/2, 1/4, 2⟩
    (by norm_num) (by norm_num)

/-- C4: a lookup timeout, a connection failure and a 404 from the store all
make specification resolution return the same None, so the engine fails
with one and the same 503 service-unavailable error in each case; the three
causes are indistinguishable in the caller-visible result. -/
theorem resolve_unavailable_single_outcome (spec? : Option SpecJson)
    (d : TrialDraw) :
    get_die_specification .timeout = none ∧
    get_die_specification .connectionError = none ∧
    get_die_specification (.response 404 spec?) = none ∧
    roll_die .timeout d = .error .serviceUnavailable ∧
    roll_die .connectionError d = .error .serviceUnavailable ∧
    roll_die (.response 404 spec?) d = .error .serviceUnavailable ∧
    engineStatus .serviceUnavailable = 503 ∧
    roll_die .timeout d = roll_die .connectionError d ∧
    roll_die .connectionError d = roll_die (.response 404 spec?) d := by
  simp [get_die_specification, roll_die, engineStatus]

/-- C7: the die-service lookup endpoint in list mode returns all stored
identifiers and never a domain error (an empty store gives the empty list);
with a stored identifier it returns that identifier and its specification;
with an unknown identifier it fails with 404. -/
theorem die_service_lookup_contract (store : List (String × StoredSpec))
    (identifier : String) (spec : StoredSpec) :
    get_die_specifications store none =
      .ok (.identifierList (store.map Prod.fst)) ∧
    get_die_specifications [] none = .ok (.identifierList []) ∧
    (store.lookup identifier = some spec →
      get_die_specifications store (some identifier) =
        .ok (.specification identifier spec)) ∧
    (store.lookup identifier = none →
      get_die_specifications store (some identifier) = .error 404) := by
  refine ⟨rfl, rfl, ?_, ?_⟩ <;> intro h <;> simp [get_die_specifications, h]

/-- C7 witness: one-entry store, hit and miss. -/
theorem die_service_lookup_contract_witness :
    get_die_specifications [("fair", ⟨[1, 2, 3, 4, 5, 6], 0⟩)] (some "fair") =
      .ok (.specification "fair" ⟨[1, 2, 3, 4, 5, 6], 0⟩) ∧
    get_die_specifications [("fair", ⟨[1, 2, 3, 4, 5, 6], 0⟩)]
      (some "missing") = .error 404 :=
  ⟨(die_service_lookup_contract [("fair", ⟨[1, 2, 3, 4, 5, 6], 0⟩)] "fair"
      ⟨[1, 2, 3, 4, 5, 6], 0⟩).2.2.1 (by decide),
   (die_service_lookup_contract [("fair", ⟨[1, 2, 3, 4, 5, 6], 0⟩)] "missing"
      ⟨[1, 2, 3, 4, 5, 6], 0⟩).2.2.2 (by decide)⟩

/-- C9: the startup pre-fetch of the die list never escapes the startup
path; on timeout, connection error, any other exception, a non-200 status,
or a 200 with an empty (or missing) identifier list, the available die-type
list is exactly the default pair fair/risky, and startup returns normally
(the fetch is a total function of the fetch outcome). -/
theorem startup_die_list_fallback (s : ℕ) (hs : s ≠ 200)
    (identifiers? : Option (List String)) :
    startup_event .timeout = ["fair", "risky"] ∧
    startup_event .connectionError = ["fair", "risky"] ∧
    startup_event .otherException = ["fair", "risky"] ∧
    startup_event (.response s identifiers?) = ["fair", "risky"] ∧
    startup_event (.response 200 (some [])) = ["fair", "risky"] ∧
    startup_event (.response 200 none) = ["fair", "risky"] := by
  simp [startup_event, fetch_available_die_types, defaultDieTypes, hs]

/-- C9 witness: a 500 response falls back to the default pair. -/
theorem startup_die_list_fallback_witness :
    startup_event (.response 500 (some ["weird"])) = ["fair", "risky"] :=
  (startup_die_list_fallback 500 (by decide) (some ["weird"])).2.2.2.1

/-- C5: a batch count outside [1,20] is rejected by validation with a 422
client error before anything runs: the engine executes no trial (no delay,
no fault draw, no roll value, no finish time) whatever the store outcome
and draws, and the gateway rejects likewise without calling the backend. -/
theorem batch_count_validation (store : StoreOutcome) (times : ℤ)
    (h : times < 1 ∨ 20 < times) (draws : List TrialDraw)
    (backend : BatchBackendOutcome) :
    roll_async store times draws = ⟨.error .clientInput, [], none⟩ ∧
    engineStatus .clientInput = 422 ∧
    frontendRollAsync times backend = ⟨.error .validationFailure, false⟩ ∧
    frontendStatus .validationFailure = 422 := by
  have hcond : ¬ (1 ≤ times ∧ times ≤ 20) := by omega
  exact ⟨by simp [roll_async, hcond], rfl,
    by simp [frontendRollAsync, hcond], rfl⟩

/-- C5 witness: count 21 is rejected with no trial executed. -/
theorem batch_count_validation_witness :
    roll_async .timeout 21 [] = ⟨.error .clientInput, [], none⟩ ∧
    engineStatus .clientInput = 422 ∧
    frontendRollAsync 21 .timeout = ⟨.error .validationFailure, false⟩ ∧
    frontendStatus .validationFailure = 422 :=
  batch_count_validation .timeout 21 (by omega) [] .timeout

/-- C10: a 200 store response whose specification object is missing, empty,
or lacking one of the two fields does not fail the engine: missing fields
are replaced by the default faces [1,2,3,4,5,6] and default fault
probability 0, and both the single and the batch roll proceed exactly as
with an explicit default specification. -/
theorem default_spec_on_missing_fields (d : TrialDraw) (h0 : 0 ≤ d.fault)
    (times : ℤ) (draws : List TrialDraw) :
    get_die_specification (.response 200 none) = some ⟨none, none⟩ ∧
    get_die_specification (.response 200 (some ⟨none, none⟩)) =
      some ⟨none, none⟩ ∧
    (∃ v ∈ [1, 2, 3, 4, 5, 6], roll_die (.response 200 none) d = .ok v) ∧
    roll_die (.response 200 none) d =
      roll_die (.response 200 (some ⟨some [1, 2, 3, 4, 5, 6], some 0⟩)) d ∧
    roll_async (.response 200 none) times draws =
      roll_async (.response 200 (some ⟨some [1, 2, 3, 4, 5, 6], some 0⟩))
        times draws ∧
    roll_async (.response 200 (some ⟨none, none⟩)) times draws =
      roll_async (.response 200 (some ⟨some [1, 2, 3, 4, 5, 6], some 0⟩))
        times draws ∧
    (∀ r : ℚ, roll_async (.response 200 (some ⟨none, some r⟩)) times draws =
      roll_async (.response 200 (some ⟨some [1, 2, 3, 4, 5, 6], some r⟩))
        times draws) ∧
    (∀ f : List ℕ,
      roll_async (.response 200 (some ⟨some f, none⟩)) times draws =
        roll_async (.response 200 (some ⟨some f, some 0⟩)) times draws) := by
  have hf : ¬ d.fault < 0 := not_lt.mpr h0
  refine ⟨rfl, rfl,
    ⟨[1, 2, 3, 4, 5, 6].getD (d.faceIdx % 6) 0,
      getD_mod_mem [1, 2, 3, 4, 5, 6] (by decide) d.faceIdx,
      by simp [roll_die, get_die_specification, rollTrialSync, hf]⟩,
    rfl, rfl, rfl, fun r => rfl, fun f => rfl⟩

/-- C10 witness: one concrete draw with a non-negative fault value. -/
theorem default_spec_on_missing_fields_witness :
    get_die_specification (.response 200 none) = some ⟨none, none⟩ ∧
    get_die_specification (.response 200 (some ⟨none, none⟩)) =
      some ⟨none, none⟩ ∧
    (∃ v ∈ [1, 2, 3, 4, 5, 6],
      roll_die (.response 200 none) ⟨1/2, 1/3, 4⟩ = .ok v) ∧
    roll_die (.response 200 none) ⟨1/2, 1/3, 4⟩ =
      roll_die (.response 200 (some ⟨some [1, 2, 3, 4, 5, 6], some 0⟩))
        ⟨1/2, 1/3, 4⟩ ∧
    roll_async (.response 200 none) 2 [] =
      roll_async (.response 200 (some ⟨some [1, 2, 3, 4, 5, 6], some 0⟩))
        2 [] ∧
    roll_async (.response 200 (some ⟨none, none⟩)) 2 [] =
      roll_async (.response 200 (some ⟨some [1, 2, 3, 4, 5, 6], some 0⟩))
        2 [] ∧
    (∀ r : ℚ, roll_async (.response 200 (some ⟨none, some r⟩)) 2 [] =
      roll_async (.response 200 (some ⟨some [1, 2, 3, 4, 5, 6], some r⟩))
        2 []) ∧
    (∀ f : List ℕ,
      roll_async (.response 200 (some ⟨some f, none⟩)) 2 [] =
        roll_async (.response 200 (some ⟨some f, some 0⟩)) 2 []) :=
  default_spec_on_missing_fields ⟨1/2, 1/3, 4⟩ (by norm_num) 2 []

/-- C1: with fault probability 0 and a count n in [1,20], the batch roll
succeeds with exactly n face values, each an element of spec.faces, the
total equal to their sum, the count equal to n, and the i-th reported value
determined by the i-th request-order trial draw (so the order follows the
originating trial indices 0..n-1, independent of the per-trial delays and
hence of completion order). -/
theorem roll_async_zero_fault (faces : List ℕ) (hne : faces ≠ [])
    (times : ℤ) (h1 : 1 ≤ times) (h2 : times ≤ 20)
    (draws : List TrialDraw) (hlen : draws.length = times.toNat)
    (hfault : ∀ d ∈ draws, 0 ≤ d.fault) :
    ∃ r : BatchSuccess,
      (roll_async (.response 200 (some ⟨some faces, some 0⟩))
        times draws).result = .ok r ∧
      r.rolls.length = times.toNat ∧
      (∀ v ∈ r.rolls, v ∈ faces) ∧
      r.total = r.rolls.sum ∧
      r.count = times ∧
      ∀ i, i < times.toNat →
        r.rolls.getD i 0 =
          faces.getD ((draws.getD i default).faceIdx % faces.length) 0 := by
  have hc : 1 ≤ times ∧ times ≤ 20 := ⟨h1, h2⟩
  have hmap : draws.map (perform_single_async_roll faces 0) =
      draws.map (fun d =>
        TrialOutcome.succeeded (faces.getD (d.faceIdx % faces.length) 0)) := by
    refine List.map_congr_left ?_
    intro d hd
    have hnf : ¬ d.fault < 0 := not_lt.mpr (hfault d hd)
    simp [perform_single_async_roll, hnf]
  have hgather :
      gatherRolls (draws.map (perform_single_async_roll faces 0)) =
        some (draws.map
          (fun d => faces.getD (d.faceIdx % faces.length) 0)) := by
    rw [hmap]
    exact gatherRolls_map_succeeded _ draws
  refine ⟨⟨(draws.map
      (fun d => faces.getD (d.faceIdx % faces.length) 0)).sum,
    draws.map (fun d => faces.getD (d.faceIdx % faces.length) 0), times⟩,
    ?_, ?_, ?_, rfl, rfl, ?_⟩
  · simp [roll_async, hc, get_die_specification, hgather]
  · simp [hlen]
  · intro v hv
    obtain ⟨d, hd, rfl⟩ := List.mem_map.mp hv
    exact getD_mod_mem faces hne d.faceIdx
  · intro i hi
    have hi' : i < draws.length := by omega
    have hi'' : i < (draws.map
        (fun d => faces.getD (d.faceIdx % faces.length) 0)).length := by
      simpa using hi'
    rw [List.getD_eq_getElem _ _ hi'', List.getElem_map,
      List.getD_eq_getElem _ _ hi']

/-- C1 witness: three zero-fault trials on a six-face die. -/
theorem roll_async_zero_fault_witness :
    ∃ r : BatchSuccess,
      (roll_async (.response 200 (some ⟨some [1, 2, 3, 4, 5, 6], some 0⟩))
        3 [⟨1/2, 0, 0⟩, ⟨1/4, 1/3, 2⟩, ⟨3/4, 1/2, 7⟩]).result = .ok r ∧
      r.rolls.length = (3 : ℤ).toNat ∧
      (∀ v ∈ r.rolls, v ∈ [1, 2, 3, 4, 5, 6]) ∧
      r.total = r.rolls.sum ∧
      r.count = 3 ∧
      ∀ i, i < (3 : ℤ).toNat →
        r.rolls.getD i 0 =
          [1, 2, 3, 4, 5, 6].getD
            (TrialDraw.faceIdx
              ([⟨1/2, 0, 0⟩, ⟨1/4, 1/3, 2⟩, ⟨3/4, 1/2, 7⟩].getD i default) %
              [1, 2, 3, 4, 5, 6].length) 0 :=
  roll_async_zero_fault [1, 2, 3, 4, 5, 6] (by decide) 3 (by omega) (by omega)
    [⟨1/2, 0, 0⟩, ⟨1/4, 1/3, 2⟩, ⟨3/4, 1/2, 7⟩] (by decide)
    (by intro d hd; fin_cases hd <;> norm_num)

/-- C2 (amended): if any trial's fault draw triggers a failure, the whole
batch fails with the 500 batch failure and no partial result list; every
one of the launched trials still runs to its own terminal outcome (gather
cancels nothing); but the batch result is produced at the gather completion
time — on failure the earliest failing trial's delay — rather than only
after every trial's outcome has been observed. -/
theorem batch_failure_semantics (faces : List ℕ) (error_rate : ℚ)
    (times : ℤ) (h1 : 1 ≤ times) (h2 : times ≤ 20) (draws : List TrialDraw) :
    (roll_async (.response 200 (some ⟨some faces, some error_rate⟩))
      times draws).executed =
        draws.map (perform_single_async_roll faces error_rate) ∧
    (roll_async (.response 200 (some ⟨some faces, some error_rate⟩))
      times draws).executed.length = draws.length ∧
    ((∃ d ∈ draws, d.fault < error_rate) →
      (roll_async (.response 200 (some ⟨some faces, some error_rate⟩))
        times draws).result = .error .batchFailed ∧
      ∃ d ∈ draws, d.fault < error_rate ∧
        (roll_async (.response 200 (some ⟨some faces, some error_rate⟩))
          times draws).finishTime = some d.delay ∧
        ∀ d2 ∈ draws, d2.fault < error_rate → d.delay ≤ d2.delay) ∧
    ((∀ d ∈ draws, ¬ d.fault < error_rate) →
      (roll_async (.response 200 (some ⟨some faces, some error_rate⟩))
        times draws).finishTime = some (maxDelay draws) ∧
      ∃ r : BatchSuccess,
        (roll_async (.response 200 (some ⟨some faces, some error_rate⟩))
          times draws).result = .ok r) ∧
    engineStatus .batchFailed = 500 := by
  have hc : 1 ≤ times ∧ times ≤ 20 := ⟨h1, h2⟩
  have hexec : (roll_async (.response 200 (some ⟨some faces, some error_rate⟩))
      times draws).executed =
        draws.map (perform_single_async_roll faces error_rate) := by
    cases hgr : gatherRolls (draws.map
        (perform_single_async_roll faces error_rate)) <;>
      simp [roll_async, hc, get_die_specification, hgr]
  have hft : (roll_async (.response 200 (some ⟨some faces, some error_rate⟩))
      times draws).finishTime =
        some (gatherCompletionTime error_rate draws) := by
    cases hgr : gatherRolls (draws.map
        (perform_single_async_roll faces error_rate)) <;>
      simp [roll_async, hc, get_die_specification, hgr]
  refine ⟨hexec, by rw [hexec]; simp, ?_, ?_, rfl⟩
  · rintro ⟨d0, hd0, hlt0⟩
    have hfailed : TrialOutcome.failed ∈
        draws.map (perform_single_async_roll faces error_rate) :=
      List.mem_map.mpr ⟨d0, hd0, by simp [perform_single_async_roll, hlt0]⟩
    have hg := gatherRolls_of_mem_failed _ hfailed
    refine ⟨by simp [roll_async, hc, get_die_specification, hg], ?_⟩
    have hmemfd : d0.delay ∈ failingDelays error_rate draws :=
      List.mem_map.mpr
        ⟨d0, List.mem_filter.mpr ⟨hd0, by simpa using hlt0⟩, rfl⟩
    cases hfd : failingDelays error_rate draws with
    | nil => rw [hfd] at hmemfd; cases hmemfd
    | cons t ts =>
      have hmin_mem : ts.foldr min t ∈ failingDelays error_rate draws := by
        rw [hfd]; exact foldr_min_mem t ts
      obtain ⟨d, hdmem, hddel⟩ := List.mem_map.mp hmin_mem
      have hdraws : d ∈ draws := (List.mem_filter.mp hdmem).1
      have hdfault : d.fault < error_rate := by
        have := (List.mem_filter.mp hdmem).2
        simpa using this
      refine ⟨d, hdraws, hdfault, ?_, ?_⟩
      · rw [hft, gatherCompletionTime, hfd, hddel]
      · intro d2 hd2 hlt2
        have hd2fd : d2.delay ∈ failingDelays error_rate draws :=
          List.mem_map.mpr
            ⟨d2, List.mem_filter.mpr ⟨hd2, by simpa using hlt2⟩, rfl⟩
        rw [hfd] at hd2fd
        rw [hddel]
        exact foldr_min_le t ts d2.delay hd2fd
  · intro hok
    have hmap : draws.map (perform_single_async_roll faces error_rate) =
        draws.map (fun d =>
          TrialOutcome.succeeded
            (faces.getD (d.faceIdx % faces.length) 0)) := by
      refine List.map_congr_left ?_
      intro d hd
      simp [perform_single_async_roll, hok d hd]
    have hgather : gatherRolls
        (draws.map (perform_single_async_roll faces error_rate)) =
          some (draws.map
            (fun d => faces.getD (d.faceIdx % faces.length) 0)) := by
      rw [hmap]
      exact gatherRolls_map_succeeded _ draws
    have hfilter : draws.filter (fun d => decide (d.fault < error_rate)) = [] := by
      rw [List.filter_eq_nil_iff]
      intro d hd
      simpa using hok d hd
    have hfd : failingDelays error_rate draws = [] := by
      rw [failingDelays, hfilter]
      rfl
    refine ⟨?_, ?_⟩
    · rw [hft, gatherCompletionTime, hfd]
    · exact ⟨⟨(draws.map
          (fun d => faces.getD (d.faceIdx % faces.length) 0)).sum,
        draws.map (fun d => faces.getD (d.faceIdx % faces.length) 0), times⟩,
        by simp [roll_async, hc, get_die_specification, hgather]⟩

/-- C2 witness: a two-trial batch with one failing trial (fault 1/10 under
rate 1/4) and one succeeding trial. -/
theorem batch_failure_semantics_witness :
    (roll_async (.response 200 (some ⟨some [1, 2, 3, 4, 5, 6], some (1/4)⟩))
      2 [⟨1/2, 1/10, 0⟩, ⟨1/4, 1/2, 1⟩]).executed =
        [⟨1/2, 1/10, 0⟩, ⟨1/4, 1/2, 1⟩].map
          (perform_single_async_roll [1, 2, 3, 4, 5, 6] (1/4)) ∧
    (roll_async (.response 200 (some ⟨some [1, 2, 3, 4, 5, 6], some (1/4)⟩))
      2 [⟨1/2, 1/10, 0⟩, ⟨1/4, 1/2, 1⟩]).executed.length =
        [(⟨1/2, 1/10, 0⟩ : TrialDraw), ⟨1/4, 1/2, 1⟩].length ∧
    ((∃ d ∈ [(⟨1/2, 1/10, 0⟩ : TrialDraw), ⟨1/4, 1/2, 1⟩],
        d.fault < (1/4 : ℚ)) →
      (roll_async (.response 200 (some ⟨some [1, 2, 3, 4, 5, 6], some (1/4)⟩))
        2 [⟨1/2, 1/10, 0⟩, ⟨1/4, 1/2, 1⟩]).result = .error .batchFailed ∧
      ∃ d ∈ [(⟨1/2, 1/10, 0⟩ : TrialDraw), ⟨1/4, 1/2, 1⟩],
        d.fault < (1/4 : ℚ) ∧
        (roll_async
          (.response 200 (some ⟨some [1, 2, 3, 4, 5, 6], some (1/4)⟩))
          2 [⟨1/2, 1/10, 0⟩, ⟨1/4, 1/2, 1⟩]).finishTime = some d.delay ∧
        ∀ d2 ∈ [(⟨1/2, 1/10, 0⟩ : TrialDraw), ⟨1/4, 1/2, 1⟩],
          d2.fault < (1/4 : ℚ) → d.delay ≤ d2.delay) ∧
    ((∀ d ∈ [(⟨1/2, 1/10, 0⟩ : TrialDraw), ⟨1/4, 1/2, 1⟩],
        ¬ d.fault < (1/4 : ℚ)) →
      (roll_async (.response 200 (some ⟨some [1, 2, 3, 4, 5, 6], some (1/4)⟩))
        2 [⟨1/2, 1/10, 0⟩, ⟨1/4, 1/2, 1⟩]).finishTime =
          some (maxDelay [⟨1/2, 1/10, 0⟩, ⟨1/4, 1/2, 1⟩]) ∧
      ∃ r : BatchSuccess,
        (roll_async
          (.response 200 (some ⟨some [1, 2, 3, 4, 5, 6], some (1/4)⟩))
          2 [⟨1/2, 1/10, 0⟩, ⟨1/4, 1/2, 1⟩]).result = .ok r) ∧
    engineStatus .batchFailed = 500 :=
  batch_failure_semantics [1, 2, 3, 4, 5, 6] (1/4) 2 (by omega) (by omega)
    [⟨1/2, 1/10, 0⟩, ⟨1/4, 1/2, 1⟩]

/-- C2 counterexample to the claim as stated: in a two-trial batch where
trial 0 fails at delay 1/10 and trial 1 succeeds at delay 9/10, the batch
failure is produced at time 1/10 — strictly before the sibling's outcome at
time 9/10 (the batch maximum) has been observed, because asyncio.gather
propagates the first raised exception immediately. -/
theorem batch_failure_early_finish_counterexample :
    (roll_async (.response 200 (some ⟨some [1, 2, 3, 4, 5, 6], some (1/4)⟩))
      2 [⟨1/10, 0, 0⟩, ⟨9/10, 1/2, 1⟩]).result = .error .batchFailed ∧
    (roll_async (.response 200 (some ⟨some [1, 2, 3, 4, 5, 6], some (1/4)⟩))
      2 [⟨1/10, 0, 0⟩, ⟨9/10, 1/2, 1⟩]).finishTime = some (1/10) ∧
    maxDelay [⟨1/10, 0, 0⟩, ⟨9/10, 1/2, 1⟩] = 9/10 ∧
    ((1 : ℚ)/10) < 9/10 := by
  refine ⟨?_, ?_, ?_, by norm_num⟩ <;>
    norm_num [roll_async, get_die_specification, perform_single_async_roll,
      gatherRolls, gatherCompletionTime, failingDelays, maxDelay]

end ObsSandbox
